import Mathlib

/-!
Verification of the 2026 Scenarios dashboards.

The repository has two entry points: `streamlit_kpi_app.py`, which loads a
precomputed scenario dataset and renders a filterable KPI dashboard, and
`app.py`, which renders randomly generated monthly financial series.  The
development below embeds the data model and the numeric logic of both entry
points (filtering, metric summarisation, threshold scanning, scenario
comparison, the data loader, and the synthetic-data generator) and proves or
refutes the specification claims about them.  Floating-point values are
modelled by rationals; a missing (NaN) cell of the optional
`marginal_roas_from_137m` column is modelled by `Option`.
-/

namespace Scenarios2026

/-- One row of the `annual_projections` table (a Scenario Record). -/
structure ScenarioRecord where
  total_annual_spend : ℚ
  total_annual_sales : ℚ
  total_annual_traffic : ℚ
  total_annual_transactions : ℚ
  blended_roas : ℚ
  blended_conversion_rate : ℚ
  blended_aov : ℚ
  marginal_roas : ℚ
  marginal_roas_from_137m : Option ℚ
deriving DecidableEq, Repr

/-- The row predicate of the Filter Engine (`streamlit_kpi_app.py` lines 78-82):
the slider bounds are given in millions of dollars and multiplied by 1,000,000,
all three comparisons are inclusive. -/
def filterPred (spendLo spendHi min_roas : ℚ) (r : ScenarioRecord) : Bool :=
  decide (spendLo * 1000000 ≤ r.total_annual_spend) &&
  decide (r.total_annual_spend ≤ spendHi * 1000000) &&
  decide (min_roas ≤ r.blended_roas)

/-- `filtered_df`: the Filter Engine applied to the annual projections table. -/
def filtered_df (annual_df : List ScenarioRecord) (spendLo spendHi min_roas : ℚ) :
    List ScenarioRecord :=
  annual_df.filter (filterPred spendLo spendHi min_roas)

lemma filterPred_eq_true {spendLo spendHi min_roas : ℚ} {r : ScenarioRecord} :
    filterPred spendLo spendHi min_roas r = true ↔
      spendLo * 1000000 ≤ r.total_annual_spend ∧
      r.total_annual_spend ≤ spendHi * 1000000 ∧ min_roas ≤ r.blended_roas := by
  simp [filterPred, and_assoc]

/-- A sample record used to instantiate the filter theorems on concrete data. -/
def c1Record : ScenarioRecord :=
  { total_annual_spend := 100000000
    total_annual_sales := 250000000
    total_annual_traffic := 0
    total_annual_transactions := 0
    blended_roas := 5/2
    blended_conversion_rate := 0
    blended_aov := 0
    marginal_roas := 0
    marginal_roas_from_137m := none }

/-- C1: for every scenario table, spend range (slider bounds in $M, hence
currency bounds `spendLo*1e6` and `spendHi*1e6`) and minimum ROAS threshold,
the Filter Engine returns exactly the records with
`lo ≤ total_annual_spend ≤ hi` and `blended_roas ≥ r_min`, preserving the
original order: the result is a sublist of the table, every returned record
satisfies both conditions (bounds inclusive), and every record of the table
satisfying both conditions is returned. -/
theorem filter_engine_exact (annual_df : List ScenarioRecord)
    (spendLo spendHi min_roas : ℚ) :
    (filtered_df annual_df spendLo spendHi min_roas).Sublist annual_df ∧
    (∀ r, r ∈ filtered_df annual_df spendLo spendHi min_roas →
      spendLo * 1000000 ≤ r.total_annual_spend ∧
      r.total_annual_spend ≤ spendHi * 1000000 ∧ min_roas ≤ r.blended_roas) ∧
    (∀ r, r ∈ annual_df →
      spendLo * 1000000 ≤ r.total_annual_spend →
      r.total_annual_spend ≤ spendHi * 1000000 → min_roas ≤ r.blended_roas →
      r ∈ filtered_df annual_df spendLo spendHi min_roas) := by
  refine ⟨List.filter_sublist _, ?_, ?_⟩
  · intro r hr
    exact filterPred_eq_true.mp (List.mem_filter.mp hr).2
  · intro r hr h1 h2 h3
    exact List.mem_filter.mpr ⟨hr, filterPred_eq_true.mpr ⟨h1, h2, h3⟩⟩

/-- Concrete instance of `filter_engine_exact`: a record whose spend exactly
equals both range bounds and whose ROAS exactly equals the threshold is
included (inclusive bounds). -/
theorem filter_engine_exact_witness :
    c1Record ∈ filtered_df [c1Record] 100 100 (5/2) :=
  (filter_engine_exact [c1Record] 100 100 (5/2)).2.2 c1Record (by simp)
    (by norm_num [c1Record]) (by norm_num [c1Record]) (by norm_num [c1Record])

/-- C8: the Filter Engine is idempotent: applying it a second time with the
same arguments to its own output returns the same sequence. -/
theorem filter_engine_idempotent (annual_df : List ScenarioRecord)
    (spendLo spendHi min_roas : ℚ) :
    filtered_df (filtered_df annual_df spendLo spendHi min_roas)
        spendLo spendHi min_roas =
      filtered_df annual_df spendLo spendHi min_roas := by
  apply List.filter_eq_self.mpr
  intro a ha
  exact (List.mem_filter.mp ha).2

/-- `dropna(subset=['marginal_roas_from_137m'])`: keep the rows whose optional
marginal-ROAS-from-baseline cell is present. -/
def dropnaMarginal (df : List ScenarioRecord) : List ScenarioRecord :=
  df.filter (fun r => r.marginal_roas_from_137m.isSome)

/-- The scanner's row test `marginal_roas_from_137m < threshold` (a missing
cell never compares below a threshold, as in pandas). -/
def belowPred (threshold : ℚ) (r : ScenarioRecord) : Bool :=
  match r.marginal_roas_from_137m with
  | some v => decide (v < threshold)
  | none => false

/-- `below_threshold`: the sub-table strictly below a threshold. -/
def belowThreshold (threshold : ℚ) (marginal_data : List ScenarioRecord) :
    List ScenarioRecord :=
  marginal_data.filter (belowPred threshold)

/-- One row of the `thresholds_data` table built by the Threshold Scanner. -/
structure ThresholdRow where
  threshold : ℚ
  annual_spend : ℚ
  incremental_from_137m : ℚ
  annual_sales : ℚ
  blended_roas : ℚ
deriving DecidableEq, Repr

/-- The loop body of the Threshold Scanner (`streamlit_kpi_app.py`
lines 325-336): if some row lies strictly below the threshold, report the
first one together with its spend, incremental spend over the 137,200,000
baseline, sales, and blended ROAS; otherwise report nothing. -/
def thresholdRowFor (threshold : ℚ) (marginal_data : List ScenarioRecord) :
    Option ThresholdRow :=
  match (belowThreshold threshold marginal_data).head? with
  | none => none
  | some first_below => some
      { threshold := threshold
        annual_spend := first_below.total_annual_spend
        incremental_from_137m := first_below.total_annual_spend - 137200000
        annual_sales := first_below.total_annual_sales
        blended_roas := first_below.blended_roas }

/-- The fixed descending threshold list of the marginal-returns analysis. -/
def roasThresholds : List ℚ := [3, 5/2, 2, 3/2, 1, 1/2]

/-- The Threshold Scanner over an arbitrary threshold list. -/
def thresholds_data_scan (thresholds : List ℚ)
    (marginal_data : List ScenarioRecord) : List ThresholdRow :=
  thresholds.filterMap (fun t => thresholdRowFor t marginal_data)

/-- `thresholds_data`: the scanner as run by the dashboard, over the fixed
threshold list and the filtered view with missing marginal cells dropped. -/
def thresholds_data (filtered : List ScenarioRecord) : List ThresholdRow :=
  thresholds_data_scan roasThresholds (dropnaMarginal filtered)

lemma belowPred_eq_true {t : ℚ} {r : ScenarioRecord} :
    belowPred t r = true ↔ ∃ v, r.marginal_roas_from_137m = some v ∧ v < t := by
  unfold belowPred
  cases h : r.marginal_roas_from_137m with
  | none => simp [h]
  | some v => simp [h]

lemma belowPred_eq_false {t : ℚ} {r : ScenarioRecord} :
    belowPred t r = false ↔
      ∀ v, r.marginal_roas_from_137m = some v → t ≤ v := by
  unfold belowPred
  cases h : r.marginal_roas_from_137m with
  | none => simp [h]
  | some v => simp [h, not_lt]

lemma head_filter_spec {α : Type} (p : α → Bool) (l : List α) :
    ∀ r, (l.filter p).head? = some r →
      ∃ i, ∃ hi : i < l.length, l.get ⟨i, hi⟩ = r ∧ p r = true ∧
        ∀ j, ∀ hj : j < l.length, j < i → p (l.get ⟨j, hj⟩) = false := by
  induction l with
  | nil => intro r h; simp at h
  | cons x xs ih =>
    intro r h
    rw [List.filter_cons] at h
    by_cases hx : p x = true
    · rw [if_pos hx] at h
      rw [List.head?_cons] at h
      injection h with h
      subst h
      exact ⟨0, Nat.succ_pos _, rfl, hx,
        fun j hj hlt => absurd hlt (Nat.not_lt_zero j)⟩
    · rw [if_neg hx] at h
      obtain ⟨i, hi, hget, hpr, hprev⟩ := ih r h
      refine ⟨i + 1, Nat.succ_lt_succ hi, hget, hpr, ?_⟩
      intro j hj hlt
      cases j with
      | zero => simpa using hx
      | succ j =>
          exact hprev j (Nat.lt_of_succ_lt_succ hj) (Nat.lt_of_succ_lt_succ hlt)

lemma thresholdRowFor_some (t : ℚ) (md : List ScenarioRecord)
    (row : ThresholdRow) (h : thresholdRowFor t md = some row) :
    row.threshold = t ∧
    ∃ i, ∃ hi : i < md.length,
      belowPred t (md.get ⟨i, hi⟩) = true ∧
      row.annual_spend = (md.get ⟨i, hi⟩).total_annual_spend ∧
      row.incremental_from_137m =
        (md.get ⟨i, hi⟩).total_annual_spend - 137200000 ∧
      row.annual_sales = (md.get ⟨i, hi⟩).total_annual_sales ∧
      row.blended_roas = (md.get ⟨i, hi⟩).blended_roas ∧
      ∀ j, ∀ hj : j < md.length, j < i →
        belowPred t (md.get ⟨j, hj⟩) = false := by
  unfold thresholdRowFor at h
  cases hh : (belowThreshold t md).head? with
  | none => rw [hh] at h; exact absurd h (by simp)
  | some fb =>
      rw [hh] at h
      injection h with h
      obtain ⟨i, hi, hget, hp, hprev⟩ := head_filter_spec (belowPred t) md fb hh
      subst h
      refine ⟨rfl, i, hi, ?_, ?_, ?_, ?_, ?_, hprev⟩
      · rw [hget]; exact hp
      · rw [hget]
      · rw [hget]
      · rw [hget]
      · rw [hget]

lemma scan_thresholds_sublist (md : List ScenarioRecord)
    (thresholds : List ℚ) :
    ((thresholds_data_scan thresholds md).map
        ThresholdRow.threshold).Sublist thresholds := by
  induction thresholds with
  | nil => simp [thresholds_data_scan]
  | cons t ts ih =>
    unfold thresholds_data_scan at ih ⊢
    rw [List.filterMap_cons]
    cases h : thresholdRowFor t md with
    | none => exact ih.cons t
    | some row =>
        rw [List.map_cons, (thresholdRowFor_some t md row h).1]
        exact ih.cons₂ t

/-- The Threshold Scanner example from the spec: spends 100M / 150M / 200M
with scanned-metric values 3.0, 2.2, 1.8 (blended ROAS set to the same
values). -/
def c2Records : List ScenarioRecord :=
  [ { total_annual_spend := 100000000
      total_annual_sales := 0
      total_annual_traffic := 0
      total_annual_transactions := 0
      blended_roas := 3
      blended_conversion_rate := 0
      blended_aov := 0
      marginal_roas := 0
      marginal_roas_from_137m := some 3 },
    { total_annual_spend := 150000000
      total_annual_sales := 0
      total_annual_traffic := 0
      total_annual_transactions := 0
      blended_roas := 11/5
      blended_conversion_rate := 0
      blended_aov := 0
      marginal_roas := 0
      marginal_roas_from_137m := some (11/5) },
    { total_annual_spend := 200000000
      total_annual_sales := 0
      total_annual_traffic := 0
      total_annual_transactions := 0
      blended_roas := 9/5
      blended_conversion_rate := 0
      blended_aov := 0
      marginal_roas := 0
      marginal_roas_from_137m := some (9/5) } ]

/-- C2 (counterexample): on the spec's own example the scanner does NOT omit
the 3.0 threshold.  The records with metric 2.2 and 1.8 are strictly below
3.0, so non-emptiness of `below_threshold` reports a crossing for 3.0 at
spend 150M; the scanner output covers all three thresholds, not only 2.5 and
2.0. -/
theorem threshold_scanner_example_refuted :
    (thresholds_data_scan [3, 5/2, 2] (dropnaMarginal c2Records)).map
        ThresholdRow.threshold = [3, 5/2, 2] ∧
    (thresholds_data_scan [3, 5/2, 2] (dropnaMarginal c2Records)).map
        ThresholdRow.annual_spend = [150000000, 150000000, 200000000] := by
  constructor <;>
    norm_num [thresholds_data_scan, thresholdRowFor, belowThreshold,
      belowPred, dropnaMarginal, c2Records, List.find?_cons,
      List.filterMap_cons, List.filterMap_nil]

/-- C2 (amended): for every filtered table (sorted ascending by spend) and
every descending threshold list, the reported thresholds form a subsequence
of the input list in order; each reported crossing is the first record of the
scanned view whose metric is strictly below the threshold (so every earlier
record, in particular the immediately preceding one, has metric ≥ threshold);
and a threshold below which no record falls is omitted.  On the spec example,
however, threshold 3.0 IS reported (crossing at spend 150M), alongside 2.5
(at 150M) and 2.0 (at 200M). -/
theorem threshold_scanner_amended (thresholds : List ℚ)
    (filtered : List ScenarioRecord)
    (hsorted : (dropnaMarginal filtered).Pairwise
      (fun a b => a.total_annual_spend ≤ b.total_annual_spend))
    (hdesc : thresholds.Pairwise (fun a b => b ≤ a)) :
    ((thresholds_data_scan thresholds (dropnaMarginal filtered)).map
        ThresholdRow.threshold).Sublist thresholds ∧
    (∀ row ∈ thresholds_data_scan thresholds (dropnaMarginal filtered),
      ∃ i, ∃ hi : i < (dropnaMarginal filtered).length,
        (∃ v, ((dropnaMarginal filtered).get ⟨i, hi⟩).marginal_roas_from_137m =
            some v ∧ v < row.threshold) ∧
        row.annual_spend =
          ((dropnaMarginal filtered).get ⟨i, hi⟩).total_annual_spend ∧
        row.annual_sales =
          ((dropnaMarginal filtered).get ⟨i, hi⟩).total_annual_sales ∧
        row.blended_roas =
          ((dropnaMarginal filtered).get ⟨i, hi⟩).blended_roas ∧
        (∀ j, ∀ hj : j < (dropnaMarginal filtered).length, j < i →
          ∀ w, ((dropnaMarginal filtered).get ⟨j, hj⟩).marginal_roas_from_137m =
              some w → row.threshold ≤ w)) ∧
    (∀ t ∈ thresholds,
      (∀ r ∈ dropnaMarginal filtered, ∀ w,
        r.marginal_roas_from_137m = some w → t ≤ w) →
      t ∉ (thresholds_data_scan thresholds (dropnaMarginal filtered)).map
        ThresholdRow.threshold) := by
  refine ⟨scan_thresholds_sublist _ _, ?_, ?_⟩
  · intro row hrow
    obtain ⟨t, ht, hsome⟩ := List.mem_filterMap.mp hrow
    obtain ⟨hthr, i, hi, hbelow, hsp, hinc, hsa, hro, hprev⟩ :=
      thresholdRowFor_some t _ row hsome
    subst hthr
    obtain ⟨v, hv, hvt⟩ := belowPred_eq_true.mp hbelow
    refine ⟨i, hi, ⟨v, hv, hvt⟩, hsp, hsa, hro, ?_⟩
    intro j hj hlt w hw
    exact belowPred_eq_false.mp (hprev j hj hlt) w hw
  · intro t ht hall hmem
    obtain ⟨row, hrow, hthr⟩ := List.mem_map.mp hmem
    obtain ⟨t', ht', hsome⟩ := List.mem_filterMap.mp hrow
    obtain ⟨hthr', i, hi, hbelow, -⟩ := thresholdRowFor_some t' _ row hsome
    obtain ⟨v, hv, hvt⟩ := belowPred_eq_true.mp hbelow
    have hmem' : (dropnaMarginal filtered).get ⟨i, hi⟩ ∈ dropnaMarginal filtered :=
      List.get_mem _ _ _
    have := hall _ hmem' v hv
    have htt : t' = t := hthr'.symm.trans hthr
    rw [htt] at hvt
    exact absurd this (not_le.mpr hvt)

/-- Concrete instance of `threshold_scanner_amended` on the spec example. -/
theorem threshold_scanner_amended_witness :
    ((thresholds_data_scan [3, 5/2, 2] (dropnaMarginal c2Records)).map
        ThresholdRow.threshold).Sublist [3, 5/2, 2] :=
  (threshold_scanner_amended [3, 5/2, 2] c2Records
    (by norm_num [dropnaMarginal, c2Records, List.pairwise_cons])
    (by norm_num [List.pairwise_cons])).1

/-- C5: every crossing reported by the Threshold Scanner carries an
incremental-spend value equal to its spend minus the single fixed baseline
constant 137,200,000 (the "$137M" reference), the same constant for every
threshold and every crossing. -/
theorem incremental_spend_from_baseline (thresholds : List ℚ)
    (filtered : List ScenarioRecord) (row : ThresholdRow)
    (hrow : row ∈ thresholds_data_scan thresholds (dropnaMarginal filtered)) :
    row.incremental_from_137m = row.annual_spend - 137200000 := by
  obtain ⟨t, ht, hsome⟩ := List.mem_filterMap.mp hrow
  obtain ⟨-, i, hi, -, hsp, hinc, -⟩ := thresholdRowFor_some t _ row hsome
  rw [hinc, hsp]

/-- Concrete instance of `incremental_spend_from_baseline` on the spec
example. -/
theorem incremental_spend_from_baseline_witness :
    ({ threshold := 3, annual_spend := 150000000
       incremental_from_137m := 12800000, annual_sales := 0
       blended_roas := 11/5 } : ThresholdRow).incremental_from_137m =
    ({ threshold := 3, annual_spend := 150000000
       incremental_from_137m := 12800000, annual_sales := 0
       blended_roas := 11/5 } : ThresholdRow).annual_spend - 137200000 :=
  incremental_spend_from_baseline [3] c2Records _
    (by norm_num [thresholds_data_scan, thresholdRowFor, belowThreshold,
      belowPred, dropnaMarginal, c2Records])

/-- pandas `Series.max` over a projected column (`none` on an empty table). -/
def colMax (f : ScenarioRecord → ℚ) : List ScenarioRecord → Option ℚ
  | [] => none
  | r :: rs => some (rs.foldl (fun acc x => max acc (f x)) (f r))

/-- pandas `Series.min` over a projected column (`none` on an empty table). -/
def colMin (f : ScenarioRecord → ℚ) : List ScenarioRecord → Option ℚ
  | [] => none
  | r :: rs => some (rs.foldl (fun acc x => min acc (f x)) (f r))

/-- pandas `idxmax` followed by `loc`: the first record achieving the column
maximum (ties broken by first occurrence). -/
def idxmaxRecord (f : ScenarioRecord → ℚ) :
    List ScenarioRecord → Option ScenarioRecord
  | [] => none
  | r :: rs =>
    match idxmaxRecord f rs with
    | none => some r
    | some best => if f r < f best then some best else some r

/-- The four key-metric cards of the dashboard header. -/
structure MetricSummary where
  total_scenarios : ℕ
  scenario_delta : ℤ
  max_sales : ℚ
  max_sales_delta : ℚ
  best_roas : ℚ
  best_roas_delta : ℚ
  optimal_spend : ℚ
deriving DecidableEq, Repr

/-- The Metric Summarizer (`streamlit_kpi_app.py` lines 93-127): scenario
count, maximum sales and its delta against the unfiltered minimum sales,
maximum ROAS and its delta against the unfiltered minimum ROAS, and the spend
at the (first) record of maximum ROAS.  The three value cards are guarded by
`if not filtered_df.empty`, modelled by the `Option`. -/
def keyMetrics (annual_df filtered : List ScenarioRecord) :
    Option MetricSummary :=
  match colMax (fun r => r.total_annual_sales) filtered,
        colMax (fun r => r.blended_roas) filtered,
        idxmaxRecord (fun r => r.blended_roas) filtered,
        colMin (fun r => r.total_annual_sales) annual_df,
        colMin (fun r => r.blended_roas) annual_df with
  | some max_sales, some best_roas, some opt, some min_sales, some min_roas =>
      some { total_scenarios := filtered.length
             scenario_delta := (filtered.length : ℤ) - annual_df.length
             max_sales := max_sales
             max_sales_delta := max_sales - min_sales
             best_roas := best_roas
             best_roas_delta := best_roas - min_roas
             optimal_spend := opt.total_annual_spend }
  | _, _, _, _, _ => none

lemma foldl_max_init_le (f : ScenarioRecord → ℚ) :
    ∀ (l : List ScenarioRecord) (a : ℚ),
      a ≤ l.foldl (fun acc x => max acc (f x)) a := by
  intro l
  induction l with
  | nil => intro a; exact le_refl a
  | cons x xs ih =>
      intro a
      exact le_trans (le_max_left a (f x)) (ih (max a (f x)))

lemma foldl_max_mem_le (f : ScenarioRecord → ℚ) :
    ∀ (l : List ScenarioRecord) (a : ℚ) (r : ScenarioRecord), r ∈ l →
      f r ≤ l.foldl (fun acc x => max acc (f x)) a := by
  intro l
  induction l with
  | nil => intro a r hr; cases hr
  | cons x xs ih =>
      intro a r hr
      rcases List.mem_cons.mp hr with h | h
      · subst h
        exact le_trans (le_max_right a (f r)) (foldl_max_init_le f xs _)
      · exact ih _ r h

lemma foldl_max_attained (f : ScenarioRecord → ℚ) :
    ∀ (l : List ScenarioRecord) (a : ℚ),
      l.foldl (fun acc x => max acc (f x)) a = a ∨
        ∃ r ∈ l, l.foldl (fun acc x => max acc (f x)) a = f r := by
  intro l
  induction l with
  | nil => intro a; exact Or.inl rfl
  | cons x xs ih =>
      intro a
      rcases ih (max a (f x)) with h | ⟨r, hr, h⟩
      · rcases max_choice a (f x) with hm | hm
        · exact Or.inl (by rw [List.foldl_cons, h, hm])
        · exact Or.inr ⟨x, List.mem_cons_self x xs,
            by rw [List.foldl_cons, h, hm]⟩
      · exact Or.inr ⟨r, List.mem_cons_of_mem x hr, by rw [List.foldl_cons, h]⟩

lemma foldl_min_le_init (f : ScenarioRecord → ℚ) :
    ∀ (l : List ScenarioRecord) (a : ℚ),
      l.foldl (fun acc x => min acc (f x)) a ≤ a := by
  intro l
  induction l with
  | nil => intro a; exact le_refl a
  | cons x xs ih =>
      intro a
      exact le_trans (ih (min a (f x))) (min_le_left a (f x))

lemma foldl_min_le_mem (f : ScenarioRecord → ℚ) :
    ∀ (l : List ScenarioRecord) (a : ℚ) (r : ScenarioRecord), r ∈ l →
      l.foldl (fun acc x => min acc (f x)) a ≤ f r := by
  intro l
  induction l with
  | nil => intro a r hr; cases hr
  | cons x xs ih =>
      intro a r hr
      rcases List.mem_cons.mp hr with h | h
      · subst h
        exact le_trans (foldl_min_le_init f xs _) (min_le_right a (f r))
      · exact ih _ r h

lemma foldl_min_attained (f : ScenarioRecord → ℚ) :
    ∀ (l : List ScenarioRecord) (a : ℚ),
      l.foldl (fun acc x => min acc (f x)) a = a ∨
        ∃ r ∈ l, l.foldl (fun acc x => min acc (f x)) a = f r := by
  intro l
  induction l with
  | nil => intro a; exact Or.inl rfl
  | cons x xs ih =>
      intro a
      rcases ih (min a (f x)) with h | ⟨r, hr, h⟩
      · rcases min_choice a (f x) with hm | hm
        · exact Or.inl (by rw [List.foldl_cons, h, hm])
        · exact Or.inr ⟨x, List.mem_cons_self x xs,
            by rw [List.foldl_cons, h, hm]⟩
      · exact Or.inr ⟨r, List.mem_cons_of_mem x hr, by rw [List.foldl_cons, h]⟩

lemma colMax_spec (f : ScenarioRecord → ℚ) (l : List ScenarioRecord)
    (h : l ≠ []) :
    ∃ m, colMax f l = some m ∧ (∀ r ∈ l, f r ≤ m) ∧ ∃ r ∈ l, m = f r := by
  cases l with
  | nil => exact absurd rfl h
  | cons x xs =>
      refine ⟨_, rfl, ?_, ?_⟩
      · intro r hr
        rcases List.mem_cons.mp hr with h' | h'
        · subst h'; exact foldl_max_init_le f xs (f r)
        · exact foldl_max_mem_le f xs (f x) r h'
      · rcases foldl_max_attained f xs (f x) with h' | ⟨r, hr, h'⟩
        · exact ⟨x, List.mem_cons_self x xs, h'⟩
        · exact ⟨r, List.mem_cons_of_mem x hr, h'⟩

lemma colMin_spec (f : ScenarioRecord → ℚ) (l : List ScenarioRecord)
    (h : l ≠ []) :
    ∃ m, colMin f l = some m ∧ (∀ r ∈ l, m ≤ f r) ∧ ∃ r ∈ l, m = f r := by
  cases l with
  | nil => exact absurd rfl h
  | cons x xs =>
      refine ⟨_, rfl, ?_, ?_⟩
      · intro r hr
        rcases List.mem_cons.mp hr with h' | h'
        · subst h'; exact foldl_min_le_init f xs (f r)
        · exact foldl_min_le_mem f xs (f x) r h'
      · rcases foldl_min_attained f xs (f x) with h' | ⟨r, hr, h'⟩
        · exact ⟨x, List.mem_cons_self x xs, h'⟩
        · exact ⟨r, List.mem_cons_of_mem x hr, h'⟩

lemma idxmaxRecord_eq_none (f : ScenarioRecord → ℚ) (l : List ScenarioRecord)
    (h : idxmaxRecord f l = none) : l = [] := by
  cases l with
  | nil => rfl
  | cons x xs =>
      exfalso
      unfold idxmaxRecord at h
      cases hxs : idxmaxRecord f xs with
      | none => rw [hxs] at h; simp at h
      | some best =>
          rw [hxs] at h
          replace h : (if f x < f best then some best else some x) = none := h
          by_cases hb : f x < f best
          · rw [if_pos hb] at h; simp at h
          · rw [if_neg hb] at h; simp at h

lemma idxmaxRecord_ne_none (f : ScenarioRecord → ℚ) (l : List ScenarioRecord)
    (h : l ≠ []) : ∃ r, idxmaxRecord f l = some r := by
  cases hx : idxmaxRecord f l with
  | none => exact absurd (idxmaxRecord_eq_none f l hx) h
  | some r => exact ⟨r, rfl⟩

lemma idxmaxRecord_spec (f : ScenarioRecord → ℚ) :
    ∀ (l : List ScenarioRecord) (r : ScenarioRecord),
      idxmaxRecord f l = some r →
      ∃ i, ∃ hi : i < l.length, l.get ⟨i, hi⟩ = r ∧
        (∀ j, ∀ hj : j < l.length, f (l.get ⟨j, hj⟩) ≤ f r) ∧
        (∀ j, ∀ hj : j < l.length, j < i → f (l.get ⟨j, hj⟩) < f r) := by
  intro l
  induction l with
  | nil => intro r h; simp [idxmaxRecord] at h
  | cons x xs ih =>
      intro r h
      unfold idxmaxRecord at h
      cases hxs : idxmaxRecord f xs with
      | none =>
          rw [hxs] at h
          injection h with h
          subst h
          have hnil : xs = [] := idxmaxRecord_eq_none f xs hxs
          subst hnil
          refine ⟨0, Nat.succ_pos _, rfl, ?_, ?_⟩
          · intro j hj
            have : j = 0 := Nat.lt_one_iff.mp hj
            subst this
            exact le_refl _
          · intro j hj hlt
            exact absurd hlt (Nat.not_lt_zero j)
      | some best =>
          rw [hxs] at h
          replace h : (if f x < f best then some best else some x) = some r := h
          obtain ⟨i, hi, hget, hub, hstrict⟩ := ih best hxs
          by_cases hb : f x < f best
          · rw [if_pos hb] at h
            injection h with h
            subst h
            refine ⟨i + 1, Nat.succ_lt_succ hi, hget, ?_, ?_⟩
            · intro j hj
              cases j with
              | zero => exact le_of_lt hb
              | succ j => exact hub j (Nat.lt_of_succ_lt_succ hj)
            · intro j hj hlt
              cases j with
              | zero => exact hb
              | succ j =>
                  exact hstrict j (Nat.lt_of_succ_lt_succ hj)
                    (Nat.lt_of_succ_lt_succ hlt)
          · rw [if_neg hb] at h
            injection h with h
            subst h
            refine ⟨0, Nat.succ_pos _, rfl, ?_, ?_⟩
            · intro j hj
              cases j with
              | zero => exact le_refl _
              | succ j =>
                  exact le_trans (hub j (Nat.lt_of_succ_lt_succ hj))
                    (not_lt.mp hb)
            · intro j hj hlt
              exact absurd hlt (Nat.not_lt_zero j)

/-- The Metric Summarizer example table from the spec:
`[(spend=100M, sales=250M, roas=2.5), (spend=200M, sales=400M, roas=2.0)]`. -/
def c4Records : List ScenarioRecord :=
  [ { total_annual_spend := 100000000
      total_annual_sales := 250000000
      total_annual_traffic := 0
      total_annual_transactions := 0
      blended_roas := 5/2
      blended_conversion_rate := 0
      blended_aov := 0
      marginal_roas := 0
      marginal_roas_from_137m := none },
    { total_annual_spend := 200000000
      total_annual_sales := 400000000
      total_annual_traffic := 0
      total_annual_transactions := 0
      blended_roas := 2
      blended_conversion_rate := 0
      blended_aov := 0
      marginal_roas := 0
      marginal_roas_from_137m := none } ]

/-- C4: for every non-empty filtered table the Metric Summarizer computes the
record count, the maximum sales and its delta against the minimum sales of
the unfiltered table, the maximum ROAS and its delta against the minimum
ROAS of the unfiltered table, and the spend at the record of maximum ROAS
with ties broken by first occurrence; on the spec example it yields max
sales 400M, max ROAS 2.5, spend-at-max-ROAS 100M. -/
theorem metric_summarizer_correct (annual_df filtered : List ScenarioRecord)
    (spendLo spendHi min_roas : ℚ)
    (hfil : filtered = filtered_df annual_df spendLo spendHi min_roas)
    (hne : filtered ≠ []) :
    (∃ m : MetricSummary, keyMetrics annual_df filtered = some m ∧
      m.total_scenarios = filtered.length ∧
      (∀ r ∈ filtered, r.total_annual_sales ≤ m.max_sales) ∧
      (∃ r ∈ filtered, m.max_sales = r.total_annual_sales) ∧
      (∃ mn, (∀ r ∈ annual_df, mn ≤ r.total_annual_sales) ∧
        (∃ r ∈ annual_df, mn = r.total_annual_sales) ∧
        m.max_sales_delta = m.max_sales - mn) ∧
      (∀ r ∈ filtered, r.blended_roas ≤ m.best_roas) ∧
      (∃ r ∈ filtered, m.best_roas = r.blended_roas) ∧
      (∃ mn, (∀ r ∈ annual_df, mn ≤ r.blended_roas) ∧
        (∃ r ∈ annual_df, mn = r.blended_roas) ∧
        m.best_roas_delta = m.best_roas - mn) ∧
      (∃ i, ∃ hi : i < filtered.length,
        (filtered.get ⟨i, hi⟩).blended_roas = m.best_roas ∧
        m.optimal_spend = (filtered.get ⟨i, hi⟩).total_annual_spend ∧
        ∀ j, ∀ hj : j < filtered.length, j < i →
          (filtered.get ⟨j, hj⟩).blended_roas < m.best_roas)) ∧
    keyMetrics c4Records c4Records = some
      { total_scenarios := 2, scenario_delta := 0
        max_sales := 400000000, max_sales_delta := 150000000
        best_roas := 5/2, best_roas_delta := 1/2
        optimal_spend := 100000000 } := by
  have hannual : annual_df ≠ [] := by
    obtain ⟨x, hx⟩ := List.exists_mem_of_ne_nil filtered hne
    rw [hfil] at hx
    exact List.ne_nil_of_mem (List.mem_filter.mp hx).1
  obtain ⟨msales, hmsales, hub_s, hat_s⟩ :=
    colMax_spec (fun r => r.total_annual_sales) filtered hne
  obtain ⟨mroas, hmroas, hub_r, hat_r⟩ :=
    colMax_spec (fun r => r.blended_roas) filtered hne
  obtain ⟨ropt, hropt⟩ :=
    idxmaxRecord_ne_none (fun r => r.blended_roas) filtered hne
  obtain ⟨mnsales, hmnsales, hlb_s, hatn_s⟩ :=
    colMin_spec (fun r => r.total_annual_sales) annual_df hannual
  obtain ⟨mnroas, hmnroas, hlb_r, hatn_r⟩ :=
    colMin_spec (fun r => r.blended_roas) annual_df hannual
  obtain ⟨i, hi, hget, hub_i, hstrict⟩ :=
    idxmaxRecord_spec (fun r => r.blended_roas) filtered ropt hropt
  have hropt_mem : ropt ∈ filtered := by
    rw [← hget]; exact List.get_mem _ _ _
  have hopt_eq : ropt.blended_roas = mroas := by
    refine le_antisymm (hub_r ropt hropt_mem) ?_
    obtain ⟨r1, hr1, hr1e⟩ := hat_r
    obtain ⟨n, hn⟩ := List.mem_iff_get.mp hr1
    rw [hr1e, ← hn]
    exact hub_i n.1 n.2
  have hkm : keyMetrics annual_df filtered = some
      { total_scenarios := filtered.length
        scenario_delta := (filtered.length : ℤ) - annual_df.length
        max_sales := msales, max_sales_delta := msales - mnsales
        best_roas := mroas, best_roas_delta := mroas - mnroas
        optimal_spend := ropt.total_annual_spend } := by
    unfold keyMetrics
    rw [hmsales, hmroas, hropt, hmnsales, hmnroas]
  constructor
  · refine ⟨_, hkm, rfl, hub_s, ?_, ⟨mnsales, hlb_s, hatn_s, rfl⟩,
      hub_r, ?_, ⟨mnroas, hlb_r, hatn_r, rfl⟩, ⟨i, hi, ?_, ?_, ?_⟩⟩
    · obtain ⟨r1, hr1, hr1e⟩ := hat_s
      exact ⟨r1, hr1, hr1e⟩
    · obtain ⟨r1, hr1, hr1e⟩ := hat_r
      exact ⟨r1, hr1, hr1e⟩
    · rw [hget]; exact hopt_eq
    · rw [hget]
    · intro j hj hlt
      have := hstrict j hj hlt
      rw [hopt_eq] at this
      exact this
  · norm_num [keyMetrics, colMax, colMin, idxmaxRecord, c4Records,
      max_def, min_def]

/-- Concrete instance of `metric_summarizer_correct`: the summarizer is
defined (`some`) on the spec example after an all-pass filter. -/
theorem metric_summarizer_correct_witness :
    ∃ m : MetricSummary,
      keyMetrics c4Records (filtered_df c4Records 0 1000 0) = some m := by
  obtain ⟨⟨m, hm, -⟩, -⟩ :=
    metric_summarizer_correct c4Records (filtered_df c4Records 0 1000 0)
      0 1000 0 rfl
      (by
        have hev : filtered_df c4Records 0 1000 0 = c4Records := by
          norm_num [filtered_df, filterPred, c4Records, List.filter_cons]
        rw [hev, c4Records]
        exact List.cons_ne_nil _ _)
  exact ⟨m, hm⟩

/-- numpy rounding to the nearest integer with ties to even, as used by
`Series.round(-6)` after scaling. -/
def roundHalfEven (q : ℚ) : ℤ :=
  if q - ⌊q⌋ < 1/2 then ⌊q⌋
  else if (1/2 : ℚ) < q - ⌊q⌋ then ⌊q⌋ + 1
  else if Even ⌊q⌋ then ⌊q⌋ else ⌊q⌋ + 1

/-- `total_annual_spend.round(-6)`: the spend rounded to the nearest million. -/
def roundToMillion (q : ℚ) : ℚ := (roundHalfEven (q / 1000000) : ℚ) * 1000000

/-- pandas `unique`: first occurrences, kept in order. -/
def uniqueFirst (l : List ℚ) : List ℚ :=
  l.foldl (fun acc x => if x ∈ acc then acc else acc ++ [x]) []

/-- The spend-selector options of the Scenario Comparison mode:
`filtered_df['total_annual_spend'].round(-6).unique()`. -/
def spendOptions (filtered : List ScenarioRecord) : List ℚ :=
  uniqueFirst (filtered.map (fun r => roundToMillion r.total_annual_spend))

/-- The ±1% tolerance-band test
`spend * 0.99 ≤ total_annual_spend ≤ spend * 1.01`. -/
def inBand (spend : ℚ) (r : ScenarioRecord) : Bool :=
  decide (spend * (99/100) ≤ r.total_annual_spend) &&
  decide (r.total_annual_spend ≤ spend * (101/100))

/-- `scenario_data`: the first filtered record inside the tolerance band of a
requested spend; `none` models the `IndexError` that `.iloc[0]` raises when
the band selection is empty. -/
def scenario_data (filtered : List ScenarioRecord) (spend : ℚ) :
    Option ScenarioRecord :=
  (filtered.filter (inBand spend)).head?

/-- One display row of the side-by-side comparison table. -/
structure ScenarioRow where
  annual_spend : ℚ
  annual_sales : ℚ
  roas : ℚ
  traffic : ℚ
  conv_rate : ℚ
  aov : ℚ
  transactions : ℚ
deriving DecidableEq, Repr

/-- The comparison row built from a located record. -/
def scenarioRowOf (r : ScenarioRecord) : ScenarioRow :=
  { annual_spend := r.total_annual_spend
    annual_sales := r.total_annual_sales
    roas := r.blended_roas
    traffic := r.total_annual_traffic
    conv_rate := r.blended_conversion_rate
    aov := r.blended_aov
    transactions := r.total_annual_transactions }

/-- One iteration of the scenario loop: locate the record and format its
row. -/
def scenarios_entry (filtered : List ScenarioRecord) (spend : ℚ) :
    Option ScenarioRow :=
  (scenario_data filtered spend).map scenarioRowOf

lemma roundHalfEven_close (q : ℚ) : |(roundHalfEven q : ℚ) - q| ≤ 1/2 := by
  have h0 : (0 : ℚ) ≤ q - ⌊q⌋ := by
    have := Int.floor_le q
    linarith
  have h1 : q - ⌊q⌋ < 1 := by
    have := Int.lt_floor_add_one q
    linarith
  unfold roundHalfEven
  by_cases hc1 : q - ⌊q⌋ < 1/2
  · rw [if_pos hc1, abs_le]
    constructor <;> linarith
  · rw [if_neg hc1]
    by_cases hc2 : (1/2 : ℚ) < q - ⌊q⌋
    · rw [if_pos hc2, abs_le]
      constructor <;> push_cast <;> linarith
    · rw [if_neg hc2]
      have heq : q - ⌊q⌋ = 1/2 := le_antisymm (not_lt.mp hc2) (not_lt.mp hc1)
      by_cases he : Even ⌊q⌋
      · rw [if_pos he, abs_le]
        constructor <;> linarith
      · rw [if_neg he, abs_le]
        constructor <;> push_cast <;> linarith

lemma roundToMillion_close (q : ℚ) : |roundToMillion q - q| ≤ 500000 := by
  have h := roundHalfEven_close (q / 1000000)
  unfold roundToMillion
  have hsplit : (roundHalfEven (q / 1000000) : ℚ) * 1000000 - q =
      ((roundHalfEven (q / 1000000) : ℚ) - q / 1000000) * 1000000 := by
    ring
  rw [hsplit, abs_mul, abs_of_pos (by norm_num : (0:ℚ) < 1000000)]
  calc |(roundHalfEven (q / 1000000) : ℚ) - q / 1000000| * 1000000
      ≤ (1/2) * 1000000 := mul_le_mul_of_nonneg_right h (by norm_num)
    _ = 500000 := by norm_num

lemma mem_foldl_unique :
    ∀ (l acc : List ℚ) (x : ℚ),
      x ∈ l.foldl (fun acc y => if y ∈ acc then acc else acc ++ [y]) acc →
      x ∈ acc ∨ x ∈ l := by
  intro l
  induction l with
  | nil => intro acc x h; exact Or.inl h
  | cons y ys ih =>
      intro acc x h
      rw [List.foldl_cons] at h
      rcases ih _ x h with h' | h'
      · by_cases hy : y ∈ acc
        · rw [if_pos hy] at h'
          exact Or.inl h'
        · rw [if_neg hy] at h'
          rcases List.mem_append.mp h' with h'' | h''
          · exact Or.inl h''
          · exact Or.inr
              (List.mem_cons.mpr (Or.inl (List.mem_singleton.mp h'')))
      · exact Or.inr (List.mem_cons_of_mem y h')

lemma spendOptions_mem (filtered : List ScenarioRecord) (t : ℚ)
    (h : t ∈ spendOptions filtered) :
    ∃ r ∈ filtered, t = roundToMillion r.total_annual_spend := by
  unfold spendOptions uniqueFirst at h
  rcases mem_foldl_unique _ [] t h with h' | h'
  · cases h'
  · obtain ⟨r, hr, hre⟩ := List.mem_map.mp h'
    exact ⟨r, hr, hre.symm⟩

lemma inBand_eq_true {spend : ℚ} {r : ScenarioRecord} :
    inBand spend r = true ↔
      spend * (99/100) ≤ r.total_annual_spend ∧
      r.total_annual_spend ≤ spend * (101/100) := by
  simp [inBand]

/-- C6: every spend-selector option of the Scenario Comparator is a spend of
the filtered table rounded to the nearest million (a multiple of one million
within 500,000 of the actual spend); a `some` result of the comparison row
builder comes from the first filtered record inside the ±1% band of the
target, and when no filtered record lies in the band the builder fails with
an empty (`none`) result. -/
theorem scenario_comparator_correct (filtered : List ScenarioRecord)
    (target : ℚ) :
    (∀ t ∈ spendOptions filtered, ∃ r ∈ filtered,
      t = roundToMillion r.total_annual_spend ∧
      |t - r.total_annual_spend| ≤ 500000 ∧ ∃ k : ℤ, t = (k : ℚ) * 1000000) ∧
    (∀ row, scenarios_entry filtered target = some row →
      ∃ i, ∃ hi : i < filtered.length,
        target * (99/100) ≤ (filtered.get ⟨i, hi⟩).total_annual_spend ∧
        (filtered.get ⟨i, hi⟩).total_annual_spend ≤ target * (101/100) ∧
        row = scenarioRowOf (filtered.get ⟨i, hi⟩) ∧
        ∀ j, ∀ hj : j < filtered.length, j < i →
          ¬(target * (99/100) ≤ (filtered.get ⟨j, hj⟩).total_annual_spend ∧
            (filtered.get ⟨j, hj⟩).total_annual_spend ≤ target * (101/100))) ∧
    ((∀ r ∈ filtered,
        ¬(target * (99/100) ≤ r.total_annual_spend ∧
          r.total_annual_spend ≤ target * (101/100))) →
      scenarios_entry filtered target = none) := by
  refine ⟨?_, ?_, ?_⟩
  · intro t ht
    obtain ⟨r, hr, hre⟩ := spendOptions_mem filtered t ht
    refine ⟨r, hr, hre, ?_, ?_⟩
    · rw [hre]
      exact roundToMillion_close r.total_annual_spend
    · exact ⟨roundHalfEven (r.total_annual_spend / 1000000), hre⟩
  · intro row hrow
    obtain ⟨r, hr, hrr⟩ := Option.map_eq_some'.mp hrow
    obtain ⟨i, hi, hget, hp, hprev⟩ :=
      head_filter_spec (inBand target) filtered r hr
    have hband := inBand_eq_true.mp (hget ▸ hp)
    refine ⟨i, hi, hband.1, hband.2, by rw [hget, hrr], ?_⟩
    intro j hj hlt hcon
    have hfalse := hprev j hj hlt
    have htrue := inBand_eq_true.mpr hcon
    rw [hfalse] at htrue
    exact Bool.noConfusion htrue
  · intro hnone
    have hfil : filtered.filter (inBand target) = [] := by
      rw [List.filter_eq_nil_iff]
      intro a ha
      intro hab
      exact hnone a ha (inBand_eq_true.mp hab)
    unfold scenarios_entry scenario_data
    rw [hfil]
    rfl

/-- Concrete instance of `scenario_comparator_correct`: a target with no
record in its tolerance band yields an empty result. -/
theorem scenario_comparator_correct_witness :
    scenarios_entry c4Records 1000000000 = none :=
  (scenario_comparator_correct c4Records 1000000000).2.2
    (by norm_num [c4Records])

/-- What an analysis mode renders for a given selection. -/
inductive ModeView where
  | emptyWarning : ModeView
  | overview (view : List ScenarioRecord) : ModeView
  | marginal (view : List ScenarioRecord) (table : List ThresholdRow) : ModeView
  | comparison (rows : List ScenarioRow) : ModeView
  | table (rows : List ScenarioRecord) : ModeView
  | crash : ModeView
deriving DecidableEq, Repr

/-- The Annual Overview mode: guarded by `if filtered_df.empty`. -/
def annualOverview (filtered : List ScenarioRecord) : ModeView :=
  if filtered.isEmpty then ModeView.emptyWarning else ModeView.overview filtered

/-- The Marginal Returns mode: guarded by `if filtered_df.empty`; renders the
charts and the thresholds table. -/
def marginalReturns (filtered : List ScenarioRecord) : ModeView :=
  if filtered.isEmpty then ModeView.emptyWarning
  else ModeView.marginal filtered (thresholds_data filtered)

/-- The Data Table mode: guarded by `if filtered_df.empty`. -/
def dataTable (filtered : List ScenarioRecord) : ModeView :=
  if filtered.isEmpty then ModeView.emptyWarning else ModeView.table filtered

/-- The Scenario Comparison mode (`streamlit_kpi_app.py` lines 356-408): it
has no empty guard; each of the three spends is looked up with `.iloc[0]`,
which raises `IndexError` (modelled by `crash`) when the band selection is
empty — in particular whenever the filtered table itself is empty. -/
def scenarioComparison (filtered : List ScenarioRecord) (s1 s2 s3 : ℚ) :
    ModeView :=
  match scenarios_entry filtered s1, scenarios_entry filtered s2,
        scenarios_entry filtered s3 with
  | some r1, some r2, some r3 => ModeView.comparison [r1, r2, r3]
  | _, _, _ => ModeView.crash

/-- A single scenario record below every slider range used in the
empty-filter examples. -/
def c3Record : ScenarioRecord :=
  { total_annual_spend := 500000000
    total_annual_sales := 900000000
    total_annual_traffic := 0
    total_annual_transactions := 0
    blended_roas := 9/5
    blended_conversion_rate := 0
    blended_aov := 0
    marginal_roas := 0
    marginal_roas_from_137m := none }

/-- C3 (counterexample): a filter selection that produces an empty result
set does NOT give an empty/warning state in every analysis mode: the
Scenario Comparison mode is unguarded and performs its first-row lookup on
the empty selection, crashing (uncaught `IndexError`) instead of warning. -/
theorem empty_state_counterexample :
    filtered_df [c3Record] 1000 2000 0 = [] ∧
    scenarioComparison (filtered_df [c3Record] 1000 2000 0) 1 1 1 =
      ModeView.crash ∧
    ModeView.crash ≠ ModeView.emptyWarning := by
  have hempty : filtered_df [c3Record] 1000 2000 0 = [] := by
    norm_num [filtered_df, filterPred, List.filter_cons, c3Record]
  refine ⟨hempty, ?_, fun h => ModeView.noConfusion h⟩
  rw [hempty]
  rfl

/-- C3 (amended): on an empty filter selection the Annual Overview, Marginal
Returns and Data Table modes show the explicit warning state and the Metric
Summarizer is not invoked (`none`); the Scenario Comparison mode, however,
is unguarded and crashes on the empty selection, and likewise crashes when a
requested comparison spend has no record within tolerance. -/
theorem empty_state_amended (annual_df : List ScenarioRecord)
    (spendLo spendHi min_roas s1 s2 s3 : ℚ)
    (hempty : filtered_df annual_df spendLo spendHi min_roas = []) :
    annualOverview (filtered_df annual_df spendLo spendHi min_roas) =
      ModeView.emptyWarning ∧
    marginalReturns (filtered_df annual_df spendLo spendHi min_roas) =
      ModeView.emptyWarning ∧
    dataTable (filtered_df annual_df spendLo spendHi min_roas) =
      ModeView.emptyWarning ∧
    keyMetrics annual_df (filtered_df annual_df spendLo spendHi min_roas) =
      none ∧
    scenarioComparison (filtered_df annual_df spendLo spendHi min_roas)
      s1 s2 s3 = ModeView.crash ∧
    (∀ filtered : List ScenarioRecord,
      (∀ r ∈ filtered,
        ¬(s1 * (99/100) ≤ r.total_annual_spend ∧
          r.total_annual_spend ≤ s1 * (101/100))) →
      scenarioComparison filtered s1 s2 s3 = ModeView.crash) := by
  rw [hempty]
  refine ⟨rfl, rfl, rfl, rfl, rfl, ?_⟩
  intro filtered hno
  have hnil : filtered.filter (inBand s1) = [] := by
    rw [List.filter_eq_nil_iff]
    intro a ha hab
    exact hno a ha (inBand_eq_true.mp hab)
  unfold scenarioComparison scenarios_entry scenario_data
  rw [hnil]
  rfl

/-- Concrete instance of `empty_state_amended` on the empty-filter example:
range `[1000M, 2000M]` against a table whose only record is below 1000M. -/
theorem empty_state_amended_witness :
    annualOverview (filtered_df [c3Record] 1000 2000 0) =
      ModeView.emptyWarning ∧
    keyMetrics [c3Record] (filtered_df [c3Record] 1000 2000 0) = none := by
  have h := empty_state_amended [c3Record] 1000 2000 0 1 1 1
    (by norm_num [filtered_df, filterPred, List.filter_cons, c3Record])
  exact ⟨h.1, h.2.2.2.1⟩

/-- A low-ROAS record that the C10 example filter excludes although its
marginal metric is below the scanned threshold. -/
def c10LowRoas : ScenarioRecord :=
  { total_annual_spend := 100000000
    total_annual_sales := 100000000
    total_annual_traffic := 0
    total_annual_transactions := 0
    blended_roas := 1
    blended_conversion_rate := 0
    blended_aov := 0
    marginal_roas := 0
    marginal_roas_from_137m := some 1 }

/-- A high-ROAS record that survives the C10 example filter. -/
def c10HighRoas : ScenarioRecord :=
  { total_annual_spend := 200000000
    total_annual_sales := 600000000
    total_annual_traffic := 0
    total_annual_transactions := 0
    blended_roas := 3
    blended_conversion_rate := 0
    blended_aov := 0
    marginal_roas := 0
    marginal_roas_from_137m := some (3/2) }

/-- The two-record table of the C10 example. -/
def c10Table : List ScenarioRecord := [c10LowRoas, c10HighRoas]

/-- C10: every crossing reported by the Threshold Scanner is a record of the
current filtered view: it passes the active spend-range and minimum-ROAS
filter, its marginal-ROAS-from-baseline value is present and strictly below
the threshold, and it is the first such record within the filtered view.
Concretely (second conjunct), with a minimum-ROAS filter of 2 on `c10Table`
the scanner reports the crossing at spend 200M although the first record of
the full table below the threshold is at spend 100M. -/
theorem scanner_uses_filtered_view (annual_df : List ScenarioRecord)
    (spendLo spendHi min_roas : ℚ) (thresholds : List ℚ) (row : ThresholdRow)
    (hrow : row ∈ thresholds_data_scan thresholds
      (dropnaMarginal (filtered_df annual_df spendLo spendHi min_roas))) :
    (∃ r ∈ filtered_df annual_df spendLo spendHi min_roas,
      r.marginal_roas_from_137m.isSome = true ∧
      spendLo * 1000000 ≤ r.total_annual_spend ∧
      r.total_annual_spend ≤ spendHi * 1000000 ∧
      min_roas ≤ r.blended_roas ∧
      row.annual_spend = r.total_annual_spend ∧
      (∃ v, r.marginal_roas_from_137m = some v ∧ v < row.threshold) ∧
      (∃ i, ∃ hi : i <
          (dropnaMarginal (filtered_df annual_df spendLo spendHi min_roas)).length,
        (dropnaMarginal (filtered_df annual_df spendLo spendHi min_roas)).get
          ⟨i, hi⟩ = r ∧
        ∀ j, ∀ hj : j <
            (dropnaMarginal (filtered_df annual_df spendLo spendHi min_roas)).length,
          j < i → ∀ w,
            ((dropnaMarginal (filtered_df annual_df spendLo spendHi min_roas)).get
              ⟨j, hj⟩).marginal_roas_from_137m = some w →
            row.threshold ≤ w)) ∧
    ((thresholds_data_scan [2]
        (dropnaMarginal (filtered_df c10Table 0 1000 2))).map
      ThresholdRow.annual_spend = [200000000] ∧
    ((belowThreshold 2 (dropnaMarginal c10Table)).head?).map
      ScenarioRecord.total_annual_spend = some 100000000) := by
  constructor
  · obtain ⟨t, ht, hsome⟩ := List.mem_filterMap.mp hrow
    obtain ⟨hthr, i, hi, hbelow, hsp, hinc, hsa, hro, hprev⟩ :=
      thresholdRowFor_some t _ row hsome
    subst hthr
    set md := dropnaMarginal (filtered_df annual_df spendLo spendHi min_roas)
      with hmd
    set r := md.get ⟨i, hi⟩ with hr
    have hrmem : r ∈ md := List.get_mem _ _ _
    have hrmem' := List.mem_filter.mp hrmem
    have hconds := filterPred_eq_true.mp (List.mem_filter.mp hrmem'.1).2
    obtain ⟨v, hv, hvt⟩ := belowPred_eq_true.mp hbelow
    refine ⟨r, hrmem'.1, hrmem'.2, hconds.1, hconds.2.1, hconds.2.2, hsp,
      ⟨v, hv, hvt⟩, ⟨i, hi, rfl, ?_⟩⟩
    intro j hj hlt w hw
    exact belowPred_eq_false.mp (hprev j hj hlt) w hw
  · constructor
    · norm_num [thresholds_data_scan, thresholdRowFor, belowThreshold,
        belowPred, dropnaMarginal, filtered_df, filterPred, c10Table,
        c10LowRoas, c10HighRoas, List.find?_cons, List.filterMap_cons,
        List.filter_cons]
    · norm_num [belowThreshold, belowPred, dropnaMarginal, c10Table,
        c10LowRoas, c10HighRoas, List.find?_cons, List.filter_cons]

/-- Concrete instance of `scanner_uses_filtered_view` on the C10 example:
the reported crossing lies in the filtered view and has a present marginal
value. -/
theorem scanner_uses_filtered_view_witness :
    ∃ r ∈ filtered_df c10Table 0 1000 2,
      r.marginal_roas_from_137m.isSome = true := by
  obtain ⟨⟨r, hr, hsome, -⟩, -⟩ :=
    scanner_uses_filtered_view c10Table 0 1000 2 [2]
      { threshold := 2, annual_spend := 200000000
        incremental_from_137m := 62800000, annual_sales := 600000000
        blended_roas := 3 }
      (by norm_num [thresholds_data_scan, thresholdRowFor, belowThreshold,
        belowPred, dropnaMarginal, filtered_df, filterPred, c10Table,
        c10LowRoas, c10HighRoas, List.find?_cons, List.filterMap_cons,
        List.filter_cons])
  exact ⟨r, hr, hsome⟩

/-- One row of the `baseline_projections` table, keyed by weekly spend. -/
structure BaselineRecord where
  weekly_spend : ℚ
  marginal_roas : ℚ
  sales_increase : ℚ
  sales : ℚ
deriving DecidableEq, Repr

/-- The mapping persisted by the pipeline in `streamlit_data.pkl`, with its
five keys. -/
structure PipelineData where
  annual_projections : List ScenarioRecord
  baseline_projections : List BaselineRecord
  holiday_projections : List (List ℚ)
  summary_metrics : List (String × ℚ)
  data_timestamp : String
deriving DecidableEq, Repr

/-- The state of the persisted dataset file at startup. -/
inductive FileState where
  | present (d : PipelineData) : FileState
  | absent : FileState
  | unreadable : FileState
deriving DecidableEq, Repr

/-- The observable outcome of the Data Loader. -/
inductive LoadResult where
  | loaded (d : PipelineData) : LoadResult
  | halted (msg : String) : LoadResult
  | uncaughtException : LoadResult
deriving DecidableEq, Repr

/-- `load_pipeline_data` (`streamlit_kpi_app.py` lines 29-37): unpickle the
file inside a `try` that catches only `FileNotFoundError`; an absent file
yields the remediation message and `st.stop()` (a halt, no retry, no partial
rendering), while a file that is present but unreadable raises an exception
that is not caught. -/
def load_pipeline_data : FileState → LoadResult
  | FileState.present d => LoadResult.loaded d
  | FileState.absent => LoadResult.halted
      ("Pipeline data not found. Please run the KPI modeling pipeline first.")
  | FileState.unreadable => LoadResult.uncaughtException

/-- C7 (counterexample): an unreadable (but present) dataset file does NOT
halt the session with the remediation message — only `FileNotFoundError` is
caught, so the failure propagates as an uncaught exception. -/
theorem data_loader_unreadable_counterexample :
    load_pipeline_data FileState.unreadable = LoadResult.uncaughtException ∧
    load_pipeline_data FileState.unreadable ≠ LoadResult.halted
      ("Pipeline data not found. Please run the KPI modeling pipeline first.") :=
  ⟨rfl, fun h => LoadResult.noConfusion h⟩

/-- C7 (amended): an absent dataset file halts the session with the
run-the-pipeline-first message, with no retry and no partial rendering; a
present and readable file returns the mapping with the keys
`annual_projections`, `baseline_projections`, `holiday_projections`,
`summary_metrics` and `data_timestamp`; a present but unreadable file
raises an uncaught exception instead of the remediation message. -/
theorem data_loader_amended (d : PipelineData) :
    load_pipeline_data FileState.absent = LoadResult.halted
      ("Pipeline data not found. Please run the KPI modeling pipeline first.") ∧
    load_pipeline_data (FileState.present d) = LoadResult.loaded
      { annual_projections := d.annual_projections
        baseline_projections := d.baseline_projections
        holiday_projections := d.holiday_projections
        summary_metrics := d.summary_metrics
        data_timestamp := d.data_timestamp } ∧
    load_pipeline_data FileState.unreadable = LoadResult.uncaughtException :=
  ⟨rfl, rfl, rfl⟩

/-- The four options of the scenario-label selector of `app.py`. -/
inductive ScenarioType where
  | Baseline : ScenarioType
  | Optimistic : ScenarioType
  | Pessimistic : ScenarioType
  | Conservative : ScenarioType
deriving DecidableEq, Repr

/-- The display label of each selector option. -/
def ScenarioType.label : ScenarioType → String
  | ScenarioType.Baseline => "Baseline"
  | ScenarioType.Optimistic => "Optimistic"
  | ScenarioType.Pessimistic => "Pessimistic"
  | ScenarioType.Conservative => "Conservative"

/-- `pd.date_range("2024-01-01", "2026-12-31", freq="M")`: the 36 month-end
dates of the fixed 2024-2026 range. -/
def numMonths : ℕ := 36

/-- `np.random.randint(lo, hi)` for draw number `k` of the session, with the
random source modelled as an abstract stream `rng` of raw draws: a value in
`[lo, hi)`. -/
def randint (rng : ℕ → ℕ) (lo hi k : ℕ) : ℕ := lo + rng k % (hi - lo)

/-- Everything `app.py` renders that depends on data: the two chart titles,
the three monthly series, and their totals. -/
structure AppOutput where
  trendTitle : String
  barTitle : String
  revenue : List ℕ
  costs : List ℕ
  profit : List ℕ
  totalRevenue : ℕ
  totalCosts : ℕ
  totalProfit : ℕ
deriving DecidableEq, Repr

/-- The synthetic-data entry point (`app.py` lines 21-67): Revenue draws in
`[100000, 500000)`, Costs in `[50000, 200000)`, Profit in `[20000, 150000)`,
one draw per month per series in call order; the scenario selector is used
only in the chart titles. -/
def appOutput (scenario_type : ScenarioType) (rng : ℕ → ℕ) : AppOutput :=
  let revenue := (List.range numMonths).map (randint rng 100000 500000)
  let costs := (List.range numMonths).map
    (fun i => randint rng 50000 200000 (numMonths + i))
  let profit := (List.range numMonths).map
    (fun i => randint rng 20000 150000 (2 * numMonths + i))
  { trendTitle := scenario_type.label ++ " Scenario - Financial Trends"
    barTitle := scenario_type.label ++ " Scenario - Summary"
    revenue := revenue
    costs := costs
    profit := profit
    totalRevenue := revenue.sum
    totalCosts := costs.sum
    totalProfit := profit.sum }

/-- C9: the scenario-label selector of the synthetic-data entry point has no
numeric effect: for any two selector options and the same random stream, the
generated monthly Revenue, Costs and Profit series and all their totals are
identical; the selection only determines the display labels of the chart
titles. -/
theorem selector_cosmetic_only (s1 s2 : ScenarioType) (rng : ℕ → ℕ) :
    (appOutput s1 rng).revenue = (appOutput s2 rng).revenue ∧
    (appOutput s1 rng).costs = (appOutput s2 rng).costs ∧
    (appOutput s1 rng).profit = (appOutput s2 rng).profit ∧
    (appOutput s1 rng).totalRevenue = (appOutput s2 rng).totalRevenue ∧
    (appOutput s1 rng).totalCosts = (appOutput s2 rng).totalCosts ∧
    (appOutput s1 rng).totalProfit = (appOutput s2 rng).totalProfit ∧
    (appOutput s1 rng).trendTitle =
      s1.label ++ " Scenario - Financial Trends" ∧
    (appOutput s1 rng).barTitle = s1.label ++ " Scenario - Summary" :=
  ⟨rfl, rfl, rfl, rfl, rfl, rfl, rfl, rfl⟩

end Scenarios2026
